import Mathlib

/-!
Shallow embedding of the KBOM generate pipeline (`runGenerate`, `printKBOM`,
`getWriter` from the `cmd` package, embedded at the end of
`src/src/pages/test-runs/list-utils.tsx`).

The five Kubernetes Fact Source calls, the fresh UUID, the clock, and the
possible I/O failure of the encoder write are modelled as explicit inputs
(`KubeClient`, `Env`).  Every side effect performed by the pipeline (Fact
Source calls, UUID generation, timestamping, file creation, sink writes,
sink closes) is recorded, in the order the Go statements execute it, in a
`List Event` trace returned alongside the `Except` result.

The packages `internal/model`, `internal/config` and `internal/kube` are not
part of the sources; the Document schema, its JSON/YAML encodings and the
build metadata are modelled from the spec where noted.
-/

namespace KBOMGen

/-- Calendar timestamp, the part of Go `time.Time` the pipeline observes
(formatting at second resolution). -/
structure DateTime where
  year : Nat
  month : Nat
  day : Nat
  hour : Nat
  minute : Nat
  second : Nat
deriving DecidableEq, Repr

/-- Modelled from the spec: the `generatedBy` tool-identity record
(`model.Tool`, populated at lines 228-235 of the source; `internal/model`
is not under the sources). -/
structure Tool where
  vendor : String
  buildTime : String
  name : String
  version : String
  commit : String
  commitTime : String
deriving DecidableEq, Repr

/-- Modelled from the spec: the `resources` aggregate of the Cluster
Snapshot (`model.Resources`; `internal/model` is not under the sources).
Image and resource descriptors are opaque strings. -/
structure Resources where
  images : List String
  resources : List String
deriving DecidableEq, Repr

/-- Modelled from the spec: the Cluster Snapshot (`model.Cluster`,
populated at lines 236-247 of the source; `internal/model` is not under
the sources).  Node descriptors and the location are opaque strings. -/
structure Cluster where
  location : String
  cniVersion : String
  k8sVersion : String
  caCertDigest : String
  nodesCount : Nat
  nodes : List String
  resources : Resources
deriving DecidableEq, Repr

/-- Modelled from the spec: the Document (`model.KBOM`, populated at lines
223-248 of the source; `internal/model` is not under the sources).  Field
order follows the spec's Document Model declaration. -/
structure KBOM where
  id : String
  bomFormat : String
  specVersion : String
  generatedAt : DateTime
  generatedBy : Tool
  cluster : Cluster
deriving DecidableEq, Repr

def KSOCCompany : String := "KSOC Labs"
def BOMFormat : String := "ksoc"
def SpecVersion : String := "0.1"
def StdOutput : String := "stdout"
def FileOutput : String := "file"
def JSONFormat : String := "json"
def YAMLFormat : String := "yaml"

/-- The resolved command flags (`short`, `output`, `format`, `outPath`
package variables bound in `init`). -/
structure Config where
  short : Bool
  output : String
  format : String
  outPath : String
deriving DecidableEq, Repr

/-- Modelled from the spec: the build-time metadata of `internal/config`
(`config.BuildTime`, `AppName`, `AppVersion`, `LastCommitHash`,
`LastCommitTime`), which is not under the sources; opaque strings. -/
structure BuildConfig where
  buildTime : String
  appName : String
  appVersion : String
  lastCommitHash : String
  lastCommitTime : String
deriving DecidableEq, Repr

/-- The five Fact Source operations of `internal/kube` consumed by
`runGenerate`, as one response table: each call either fails or returns
its data.  `metadata` yields `(k8sVersion, caCertDigest)`; `allNodes` and
`allResources` take the `full` detail flag. -/
structure KubeClient where
  metadata : Except String (String × String)
  allNodes : Bool → Except String (List String)
  location : Except String String
  allImages : Except String (List String)
  allResources : Bool → Except String (List String)

/-- The ambient effects of one run: the fresh UUID returned by
`uuid.New().String()`, the clock value returned by `time.Now()`, and the
I/O outcome of the encoder's write to the sink (`enc.Encode`). -/
structure Env where
  newUUID : String
  now : DateTime
  writeResult : Except String Unit

/-- A sink as returned by `getWriter`: the process's standard output, or a
created file at the given path. -/
inductive Sink where
  | stdout : Sink
  | file (path : String) : Sink
deriving DecidableEq, Repr

/-- One observable side effect of the pipeline, in program order. -/
inductive Event where
  | callMetadata : Event
  | callAllNodes (full : Bool) : Event
  | callLocation : Event
  | callAllImages : Event
  | callAllResources (full : Bool) : Event
  | genID (id : String) : Event
  | stampTime (t : DateTime) : Event
  | createFile (path : String) : Event
  | writeBytes (sink : Sink) (bytes : String) : Event
  | closeSink (sink : Sink) : Event
deriving DecidableEq, Repr

def pad2 (n : Nat) : String :=
  if n < 10 then "0" ++ toString n else toString n

def pad4 (n : Nat) : String :=
  if n < 10 then "000" ++ toString n
  else if n < 100 then "00" ++ toString n
  else if n < 1000 then "0" ++ toString n
  else toString n

/-- Go `kbom.GeneratedAt.Format ("2006-01-02-15-04-05")` (line 288):
dash-separated zero-padded fields. -/
def formatTimeDashed (t : DateTime) : String :=
  pad4 t.year ++ "-" ++ pad2 t.month ++ "-" ++ pad2 t.day ++ "-" ++
    pad2 t.hour ++ "-" ++ pad2 t.minute ++ "-" ++ pad2 t.second

/-- Modelled from the spec: Go `time.Time` JSON marshalling at second
resolution (RFC 3339, e.g. 2024-01-02T03:04:05Z). -/
def formatRFC3339 (t : DateTime) : String :=
  pad4 t.year ++ "-" ++ pad2 t.month ++ "-" ++ pad2 t.day ++ "T" ++
    pad2 t.hour ++ ":" ++ pad2 t.minute ++ ":" ++ pad2 t.second ++ "Z"

/-- Go `fmt.Sprintf "%q"` on the strings the pipeline quotes (plain
double-quoting; the format and output selectors carry no escapes). -/
def goQuote (s : String) : String := "\"" ++ s ++ "\""

/-- Go `path.Join dir name` for a clean directory and a clean name (the
only way the source uses it, line 294). -/
def pathJoin (dir name : String) : String :=
  if dir = "" then name
  else if dir = "." then name
  else dir ++ "/" ++ name

/-- A JSON string literal (document values carry no escapes in the model). -/
def jsonStr (s : String) : String := "\"" ++ s ++ "\""

/-- A JSON array of string literals. -/
def jsonStrList (xs : List String) : String :=
  "[" ++ String.intercalate ", " (xs.map jsonStr) ++ "]"

/-- Modelled from the spec: JSON encoding of the `generatedBy` record,
2-space indentation per level, fields in declared order. -/
def encodeTool (t : Tool) : String :=
  "\x7b\n    \"vendor\": " ++ jsonStr t.vendor ++
    ",\n    \"name\": " ++ jsonStr t.name ++
    ",\n    \"version\": " ++ jsonStr t.version ++
    ",\n    \"commit\": " ++ jsonStr t.commit ++
    ",\n    \"commitTime\": " ++ jsonStr t.commitTime ++
    ",\n    \"buildTime\": " ++ jsonStr t.buildTime ++
    "\n  \x7d"

/-- Modelled from the spec: JSON encoding of the `resources` aggregate. -/
def encodeResources (r : Resources) : String :=
  "\x7b\n      \"images\": " ++ jsonStrList r.images ++
    ",\n      \"resources\": " ++ jsonStrList r.resources ++
    "\n    \x7d"

/-- Modelled from the spec: JSON encoding of the Cluster Snapshot, fields
in the spec's declared order. -/
def encodeCluster (c : Cluster) : String :=
  "\x7b\n    \"location\": " ++ jsonStr c.location ++
    ",\n    \"cniVersion\": " ++ jsonStr c.cniVersion ++
    ",\n    \"k8sVersion\": " ++ jsonStr c.k8sVersion ++
    ",\n    \"caCertDigest\": " ++ jsonStr c.caCertDigest ++
    ",\n    \"nodesCount\": " ++ toString c.nodesCount ++
    ",\n    \"nodes\": " ++ jsonStrList c.nodes ++
    ",\n    \"resources\": " ++ encodeResources c.resources ++
    "\n  \x7d"

/-- Everything the JSON encoder emits after the `id` value: independent of
`KBOM.id`. -/
def encodeJSONRest (k : KBOM) : String :=
  "\",\n  \"bomFormat\": " ++ jsonStr k.bomFormat ++
    ",\n  \"specVersion\": " ++ jsonStr k.specVersion ++
    ",\n  \"generatedAt\": " ++ jsonStr (formatRFC3339 k.generatedAt) ++
    ",\n  \"generatedBy\": " ++ encodeTool k.generatedBy ++
    ",\n  \"cluster\": " ++ encodeCluster k.cluster ++
    "\n\x7d\n"

/-- Modelled from the spec: the JSON serialization of a Document produced
by `json.NewEncoder` with `SetIndent ("", "  ")` (lines 266-268): 2-space
indentation, fields in the Document Model's declared order, `id` first. -/
def encodeJSON (k : KBOM) : String :=
  "\x7b\n  \"id\": \"" ++ k.id ++ encodeJSONRest k

/-- Everything the YAML encoder emits after the `id` value. -/
def encodeYAMLRest (k : KBOM) : String :=
  "\nbomFormat: " ++ k.bomFormat ++
    "\nspecVersion: " ++ k.specVersion ++
    "\ngeneratedAt: " ++ formatRFC3339 k.generatedAt ++
    "\ngeneratedBy:\n  vendor: " ++ k.generatedBy.vendor ++
    "\n  name: " ++ k.generatedBy.name ++
    "\n  version: " ++ k.generatedBy.version ++
    "\ncluster:\n  k8sVersion: " ++ k.cluster.k8sVersion ++
    "\n  caCertDigest: " ++ k.cluster.caCertDigest ++
    "\n  nodesCount: " ++ toString k.cluster.nodesCount ++
    "\n  nodes: " ++ String.intercalate ", " k.cluster.nodes ++ "\n"

/-- Modelled from the spec: the YAML serialization of a Document produced
by `yaml.NewEncoder` (lines 272-273): one document per stream. -/
def encodeYAML (k : KBOM) : String :=
  "id: " ++ k.id ++ encodeYAMLRest k

/-- The derived output file name of `getWriter` (line 294):
`path.Join (outPath, Sprintf ("kbom-%s-%s.%s", key, formattedTime, format))`. -/
def derivedFilePath (cfg : Config) (k : KBOM) : String :=
  let formattedTime := formatTimeDashed k.generatedAt
  let key := if k.cluster.caCertDigest.length > 8
             then k.cluster.caCertDigest.take 8
             else k.id.take 8
  pathJoin cfg.outPath ("kbom-" ++ key ++ "-" ++ formattedTime ++ "." ++ cfg.format)

/-- `getWriter` (lines 283-303): selects the sink by the `output` flag;
`stdout` hands back the process stream, `file` creates
`kbom-<key>-<time>.<format>` in `outPath`, anything else fails with the
unsupported-output error.  File creation is modelled as succeeding. -/
def getWriter (cfg : Config) (k : KBOM) : Except String Sink × List Event :=
  if cfg.output = StdOutput then
    (Except.ok Sink.stdout, [])
  else if cfg.output = FileOutput then
    let p := derivedFilePath cfg k
    (Except.ok (Sink.file p), [Event.createFile p])
  else
    (Except.error ("output " ++ goQuote cfg.output ++ " is not supported"), [])

/-- `printKBOM` (lines 257-281): obtain the writer, defer its close, then
switch on the `format` flag; JSON and YAML encode the document onto the
sink (the write may fail, per `Env.writeResult`), any other format fails
with the unsupported-format error.  The deferred `writer.Close()` fires on
every path after `getWriter` succeeds — including when the writer is the
standard output stream. -/
def printKBOM (cfg : Config) (env : Env) (k : KBOM) : Except String Unit × List Event :=
  match getWriter cfg k with
  | (Except.error e, tr) => (Except.error e, tr)
  | (Except.ok w, tr) =>
    if cfg.format = JSONFormat then
      match env.writeResult with
      | Except.error e => (Except.error e, tr ++ [Event.closeSink w])
      | Except.ok _ =>
          (Except.ok (), tr ++ [Event.writeBytes w (encodeJSON k), Event.closeSink w])
    else if cfg.format = YAMLFormat then
      match env.writeResult with
      | Except.error e => (Except.error e, tr ++ [Event.closeSink w])
      | Except.ok _ =>
          (Except.ok (), tr ++ [Event.writeBytes w (encodeYAML k), Event.closeSink w])
    else
      (Except.error ("format " ++ goQuote cfg.format ++ " is not supported"),
        tr ++ [Event.closeSink w])

/-- The assembly phase of `runGenerate` (lines 197-248): the five Fact
Source calls in program order, each aborting the run on error, then the
single construction of the `model.KBOM` literal — where `uuid.New()` and
`time.Now()` are evaluated — recorded as `genID`/`stampTime` events in
that position. -/
def assembleKBOM (cfg : Config) (bc : BuildConfig) (client : KubeClient) (env : Env) :
    Except String KBOM × List Event :=
  match client.metadata with
  | Except.error e => (Except.error e, [Event.callMetadata])
  | Except.ok (k8sVersion, caCertDigest) =>
    let full := !cfg.short
    match client.allNodes full with
    | Except.error e => (Except.error e, [Event.callMetadata, Event.callAllNodes full])
    | Except.ok nodes =>
      match client.location with
      | Except.error e =>
          (Except.error e, [Event.callMetadata, Event.callAllNodes full, Event.callLocation])
      | Except.ok loc =>
        match client.allImages with
        | Except.error e =>
            (Except.error e,
              [Event.callMetadata, Event.callAllNodes full, Event.callLocation,
                Event.callAllImages])
        | Except.ok allImages =>
          match client.allResources full with
          | Except.error e =>
              (Except.error e,
                [Event.callMetadata, Event.callAllNodes full, Event.callLocation,
                  Event.callAllImages, Event.callAllResources full])
          | Except.ok resources =>
            let kbom : KBOM :=
              { id := env.newUUID
                bomFormat := BOMFormat
                specVersion := SpecVersion
                generatedAt := env.now
                generatedBy :=
                  { vendor := KSOCCompany
                    buildTime := bc.buildTime
                    name := bc.appName
                    version := bc.appVersion
                    commit := bc.lastCommitHash
                    commitTime := bc.lastCommitTime }
                cluster :=
                  { location := loc
                    cniVersion := ""
                    k8sVersion := k8sVersion
                    caCertDigest := caCertDigest
                    nodesCount := nodes.length
                    nodes := nodes
                    resources := { images := allImages, resources := resources } } }
            (Except.ok kbom,
              [Event.callMetadata, Event.callAllNodes full, Event.callLocation,
                Event.callAllImages, Event.callAllResources full,
                Event.genID env.newUUID, Event.stampTime env.now])

/-- `runGenerate` (lines 189-255): build the client (`kube.NewClient`,
whose outcome is the `newClient` argument), assemble the document, then
`printKBOM` it; the first error aborts the run. -/
def runGenerate (cfg : Config) (bc : BuildConfig) (newClient : Except String KubeClient)
    (env : Env) : Except String Unit × List Event :=
  match newClient with
  | Except.error e => (Except.error e, [])
  | Except.ok client =>
    match assembleKBOM cfg bc client env with
    | (Except.error e, tr) => (Except.error e, tr)
    | (Except.ok kbom, tr) =>
      match printKBOM cfg env kbom with
      | (Except.error e, tr2) => (Except.error e, tr ++ tr2)
      | (Except.ok _, tr2) => (Except.ok (), tr ++ tr2)

/-- Does the event touch an output sink (create a file, write bytes, or
close a sink)? -/
def sinkTouched : Event → Bool
  | Event.createFile _ => true
  | Event.writeBytes _ _ => true
  | Event.closeSink _ => true
  | _ => false

/-- Does the event write bytes to a sink? -/
def isWrite : Event → Bool
  | Event.writeBytes _ _ => true
  | _ => false

/-- Is the event one of the five Fact Source collection calls? -/
def isCollectCall : Event → Bool
  | Event.callMetadata => true
  | Event.callAllNodes _ => true
  | Event.callLocation => true
  | Event.callAllImages => true
  | Event.callAllResources _ => true
  | _ => false

/-- Is the event the generation of the document id? -/
def isGenID : Event → Bool
  | Event.genID _ => true
  | _ => false

/-- Is the event the stamping of the generatedAt timestamp? -/
def isStamp : Event → Bool
  | Event.stampTime _ => true
  | _ => false

/-- Every `p`-event of the trace occurs strictly before every `q`-event:
no `q`-event is followed, later in the trace, by a `p`-event. -/
def precedesAll (p q : Event → Bool) : List Event → Bool
  | [] => true
  | e :: rest =>
      (if q e then rest.all (fun x => !(p x)) else true) && precedesAll p q rest

end KBOMGen

namespace KBOMGen

/-! Concrete fixtures used by witnesses and counterexamples. -/

/-- Sample build metadata. -/
def bc₀ : BuildConfig :=
  { buildTime := "2024-01-01T00:00:00Z"
    appName := "kbom"
    appVersion := "0.1.0"
    lastCommitHash := "deadbeefcafe"
    lastCommitTime := "2023-12-31T00:00:00Z" }

/-- Sample Fact Source in which all five calls succeed. -/
def client₀ : KubeClient :=
  { metadata := Except.ok ("v1.27.3", "abcdef1234567890")
    allNodes := fun _ => Except.ok ["node-a", "node-b", "node-c"]
    location := Except.ok "aws/us-east-1"
    allImages := Except.ok ["registry/img1:1.0", "registry/img2:2.0"]
    allResources := fun _ => Except.ok ["deployment/x", "service/y"] }

/-- Sample Fact Source whose metadata call fails. -/
def clientMetaFail : KubeClient :=
  { client₀ with metadata := Except.error "boom" }

/-- Sample environment: fixed UUID and clock, successful sink write. -/
def env₀ : Env :=
  { newUUID := "11112222-3333-4444-5555-666677778888"
    now := ⟨2024, 1, 2, 3, 4, 5⟩
    writeResult := Except.ok () }

/-- Same clock as `env₀`, different fresh UUID. -/
def envB : Env :=
  { env₀ with newUUID := "aaaabbbb-cccc-dddd-eeee-ffff00001111" }

/-- Flags: stdout sink, JSON format. -/
def cfgStd : Config := { short := false, output := "stdout", format := "json", outPath := "." }

/-- Flags: file sink in the current directory, JSON format. -/
def cfgFile : Config := { short := false, output := "file", format := "json", outPath := "." }

/-- Flags: file sink, unsupported format selector. -/
def cfgXmlFile : Config := { short := false, output := "file", format := "xml", outPath := "." }

/-- Flags: stdout sink, unsupported format selector. -/
def cfgXmlStd : Config := { short := false, output := "stdout", format := "xml", outPath := "." }

/-- Flags: unsupported output selector. -/
def cfgBadOut : Config := { short := false, output := "s3", format := "json", outPath := "." }

/-- The document assembled from `client₀` under `env₀` (full detail). -/
def docA : KBOM :=
  { id := env₀.newUUID
    bomFormat := BOMFormat
    specVersion := SpecVersion
    generatedAt := env₀.now
    generatedBy :=
      { vendor := KSOCCompany
        buildTime := bc₀.buildTime
        name := bc₀.appName
        version := bc₀.appVersion
        commit := bc₀.lastCommitHash
        commitTime := bc₀.lastCommitTime }
    cluster :=
      { location := "aws/us-east-1"
        cniVersion := ""
        k8sVersion := "v1.27.3"
        caCertDigest := "abcdef1234567890"
        nodesCount := 3
        nodes := ["node-a", "node-b", "node-c"]
        resources :=
          { images := ["registry/img1:1.0", "registry/img2:2.0"]
            resources := ["deployment/x", "service/y"] } } }

/-- The same document assembled under `envB` (only the id differs). -/
def docB : KBOM := { docA with id := envB.newUUID }

end KBOMGen

namespace KBOMGen

/-- Follows the spec's words: the filename timestamp, `generatedAt`
formatted as YYYY-MM-DD-HH-MM-SS. -/
def specTimestamp (t : DateTime) : String :=
  pad4 t.year ++ "-" ++ pad2 t.month ++ "-" ++ pad2 t.day ++ "-" ++
    pad2 t.hour ++ "-" ++ pad2 t.minute ++ "-" ++ pad2 t.second

/-- Follows the spec's words: the derived file name
`kbom-<fingerprint8>-<timestamp>.<ext>`, where `fingerprint8` is the first
8 characters of `caCertDigest` when its length exceeds 8 and otherwise the
first 8 characters of `id`. -/
def specFileName (id digest : String) (t : DateTime) (ext : String) : String :=
  let fingerprint8 := if digest.length > 8 then digest.take 8 else id.take 8
  "kbom-" ++ fingerprint8 ++ "-" ++ specTimestamp t ++ "." ++ ext

/-- The assembly trace of a fully successful run under `env₀`. -/
def trA : List Event :=
  [Event.callMetadata, Event.callAllNodes true, Event.callLocation,
   Event.callAllImages, Event.callAllResources true,
   Event.genID env₀.newUUID, Event.stampTime env₀.now]

/-- The assembly trace of a fully successful run under `envB`. -/
def trB : List Event :=
  [Event.callMetadata, Event.callAllNodes true, Event.callLocation,
   Event.callAllImages, Event.callAllResources true,
   Event.genID envB.newUUID, Event.stampTime envB.now]

/-- Successful-assembly inversion: a produced Document comes from five
successful Fact Source calls, its fields are exactly the collected data,
and the assembly trace is the five calls followed by `genID` and
`stampTime`. -/
theorem assembleKBOM_ok_elim (cfg : Config) (bc : BuildConfig) (client : KubeClient)
    (env : Env) (k : KBOM) (tr : List Event)
    (h : assembleKBOM cfg bc client env = (Except.ok k, tr)) :
    ∃ kv cd nodes loc imgs ress,
      client.metadata = Except.ok (kv, cd) ∧
      client.allNodes (!cfg.short) = Except.ok nodes ∧
      client.location = Except.ok loc ∧
      client.allImages = Except.ok imgs ∧
      client.allResources (!cfg.short) = Except.ok ress ∧
      k = { id := env.newUUID, bomFormat := BOMFormat, specVersion := SpecVersion,
            generatedAt := env.now,
            generatedBy := { vendor := KSOCCompany, buildTime := bc.buildTime,
                             name := bc.appName, version := bc.appVersion,
                             commit := bc.lastCommitHash, commitTime := bc.lastCommitTime },
            cluster := { location := loc, cniVersion := "", k8sVersion := kv,
                         caCertDigest := cd, nodesCount := nodes.length, nodes := nodes,
                         resources := { images := imgs, resources := ress } } } ∧
      tr = [Event.callMetadata, Event.callAllNodes (!cfg.short), Event.callLocation,
            Event.callAllImages, Event.callAllResources (!cfg.short),
            Event.genID env.newUUID, Event.stampTime env.now] := by
  unfold assembleKBOM at h
  cases hmeta : client.metadata with
  | error e => simp [hmeta] at h
  | ok md =>
    obtain ⟨kv, cd⟩ := md
    simp only [hmeta] at h
    cases hn : client.allNodes !cfg.short with
    | error e => simp [hn] at h
    | ok nodes =>
      simp only [hn] at h
      cases hl : client.location with
      | error e => simp [hl] at h
      | ok loc =>
        simp only [hl] at h
        cases hi : client.allImages with
        | error e => simp [hi] at h
        | ok imgs =>
          simp only [hi] at h
          cases hr : client.allResources !cfg.short with
          | error e => simp [hr] at h
          | ok ress =>
            simp only [hr] at h
            simp only [Prod.mk.injEq, Except.ok.injEq] at h
            obtain ⟨hk, htr⟩ := h
            exact ⟨kv, cd, nodes, loc, imgs, ress, rfl, rfl, rfl, rfl, rfl,
              hk.symm, htr.symm⟩

/-- Failed-assembly inversion: an assembly error is the verbatim error of
one of the five Fact Source calls, and the trace holds no sink event. -/
theorem assembleKBOM_error_elim (cfg : Config) (bc : BuildConfig) (client : KubeClient)
    (env : Env) (e : String) (tr : List Event)
    (h : assembleKBOM cfg bc client env = (Except.error e, tr)) :
    (client.metadata = Except.error e ∨ client.allNodes (!cfg.short) = Except.error e ∨
     client.location = Except.error e ∨ client.allImages = Except.error e ∨
     client.allResources (!cfg.short) = Except.error e) ∧
    (tr.all (fun ev => !(sinkTouched ev))) = true := by
  unfold assembleKBOM at h
  cases hmeta : client.metadata with
  | error e2 =>
    simp only [hmeta, Prod.mk.injEq, Except.error.injEq] at h
    obtain ⟨he, htr⟩ := h
    subst he
    subst htr
    exact ⟨Or.inl rfl, rfl⟩
  | ok md =>
    obtain ⟨kv, cd⟩ := md
    simp only [hmeta] at h
    cases hn : client.allNodes !cfg.short with
    | error e2 =>
      simp only [hn, Prod.mk.injEq, Except.error.injEq] at h
      obtain ⟨he, htr⟩ := h
      subst he
      subst htr
      exact ⟨Or.inr (Or.inl rfl), rfl⟩
    | ok nodes =>
      simp only [hn] at h
      cases hl : client.location with
      | error e2 =>
        simp only [hl, Prod.mk.injEq, Except.error.injEq] at h
        obtain ⟨he, htr⟩ := h
        subst he
        subst htr
        exact ⟨Or.inr (Or.inr (Or.inl rfl)), rfl⟩
      | ok loc =>
        simp only [hl] at h
        cases hi : client.allImages with
        | error e2 =>
          simp only [hi, Prod.mk.injEq, Except.error.injEq] at h
          obtain ⟨he, htr⟩ := h
          subst he
          subst htr
          exact ⟨Or.inr (Or.inr (Or.inr (Or.inl rfl))), rfl⟩
        | ok imgs =>
          simp only [hi] at h
          cases hr : client.allResources !cfg.short with
          | error e2 =>
            simp only [hr, Prod.mk.injEq, Except.error.injEq] at h
            obtain ⟨he, htr⟩ := h
            subst he
            subst htr
            exact ⟨Or.inr (Or.inr (Or.inr (Or.inr rfl))), rfl⟩
          | ok ress =>
            simp only [hr] at h
            simp at h

/-- Every event emitted by `printKBOM` is a sink event: the serialization
and routing phase performs no collection call and no id or timestamp
generation. -/
theorem printKBOM_trace_sink (cfg : Config) (env : Env) (k : KBOM) :
    ((printKBOM cfg env k).2.all (fun ev => sinkTouched ev)) = true := by
  unfold printKBOM getWriter
  by_cases ho : cfg.output = StdOutput
  · rw [if_pos ho]
    dsimp only
    by_cases hj : cfg.format = JSONFormat
    · rw [if_pos hj]
      cases hw : env.writeResult <;> rfl
    · rw [if_neg hj]
      by_cases hy : cfg.format = YAMLFormat
      · rw [if_pos hy]
        cases hw : env.writeResult <;> rfl
      · rw [if_neg hy]
        rfl
  · rw [if_neg ho]
    by_cases hf : cfg.output = FileOutput
    · rw [if_pos hf]
      dsimp only
      by_cases hj : cfg.format = JSONFormat
      · rw [if_pos hj]
        cases hw : env.writeResult <;> rfl
      · rw [if_neg hj]
        by_cases hy : cfg.format = YAMLFormat
        · rw [if_pos hy]
          cases hw : env.writeResult <;> rfl
        · rw [if_neg hy]
          rfl
    · rw [if_neg hf]
      rfl

end KBOMGen

namespace KBOMGen

/-- C1: for every successfully produced Document, the Cluster Snapshot
field `nodesCount` equals the length of the `nodes` sequence, for every
detail mode and every node count including zero. -/
theorem producedDoc_nodesCount_eq_len (cfg : Config) (bc : BuildConfig)
    (client : KubeClient) (env : Env) (k : KBOM) (tr : List Event)
    (h : assembleKBOM cfg bc client env = (Except.ok k, tr)) :
    k.cluster.nodesCount = k.cluster.nodes.length := by
  obtain ⟨kv, cd, nodes, loc, imgs, ress, _, _, _, _, _, hk, _⟩ :=
    assembleKBOM_ok_elim cfg bc client env k tr h
  subst hk
  rfl

/-- C1 witness: the invariant evaluated on the concrete document assembled
from `client₀`. -/
theorem producedDoc_nodesCount_eq_len_witness :
    docA.cluster.nodesCount = docA.cluster.nodes.length :=
  producedDoc_nodesCount_eq_len cfgStd bc₀ client₀ env₀ docA trA rfl

/-- C2: if any of the five collection calls fails, the run aborts with
that verbatim error, and the run's trace holds no file creation, no sink
write and no sink close: no sink is touched and no document, partial or
otherwise, is serialized. -/
theorem collect_fail_aborts_before_sink (cfg : Config) (bc : BuildConfig)
    (client : KubeClient) (env : Env) (e : String) (tr : List Event)
    (h : assembleKBOM cfg bc client env = (Except.error e, tr)) :
    runGenerate cfg bc (Except.ok client) env = (Except.error e, tr) ∧
    (tr.all (fun ev => !(sinkTouched ev))) = true ∧
    (client.metadata = Except.error e ∨ client.allNodes (!cfg.short) = Except.error e ∨
     client.location = Except.error e ∨ client.allImages = Except.error e ∨
     client.allResources (!cfg.short) = Except.error e) := by
  obtain ⟨hdisj, hall⟩ := assembleKBOM_error_elim cfg bc client env e tr h
  refine ⟨?_, hall, hdisj⟩
  unfold runGenerate
  simp only [h]

/-- C2 witness: a failing metadata call aborts the concrete run with its
error and a trace containing only that collection call. -/
theorem collect_fail_aborts_before_sink_witness :
    runGenerate cfgStd bc₀ (Except.ok clientMetaFail) env₀ =
      (Except.error "boom", [Event.callMetadata]) ∧
    ([Event.callMetadata].all (fun ev => !(sinkTouched ev))) = true ∧
    (clientMetaFail.metadata = Except.error "boom" ∨
     clientMetaFail.allNodes (!cfgStd.short) = Except.error "boom" ∨
     clientMetaFail.location = Except.error "boom" ∨
     clientMetaFail.allImages = Except.error "boom" ∨
     clientMetaFail.allResources (!cfgStd.short) = Except.error "boom") :=
  collect_fail_aborts_before_sink cfgStd bc₀ clientMetaFail env₀ "boom"
    [Event.callMetadata] rfl

/-- C3 counterexample: in a concrete successful run, neither the `genID`
event nor the `stampTime` event precedes the collection calls — the id is
generated and the timestamp stamped only at Document construction, after
all five calls. -/
theorem id_time_before_calls_cex :
    (precedesAll isGenID isCollectCall
      (runGenerate cfgStd bc₀ (Except.ok client₀) env₀).2 = false) ∧
    (precedesAll isStamp isCollectCall
      (runGenerate cfgStd bc₀ (Except.ok client₀) env₀).2 = false) := ⟨rfl, rfl⟩

/-- C3 (amended): in every successful assembly the trace is the five
collection calls followed by `genID` and `stampTime`; so every collection
call precedes id generation and timestamping, which in turn precede every
sink event (the remainder of the run's trace, contributed by `printKBOM`,
consists of sink events only); the Document carries exactly that id and
timestamp. -/
theorem id_time_stamped_after_calls (cfg : Config) (bc : BuildConfig)
    (client : KubeClient) (env : Env) (k : KBOM) (tr : List Event)
    (h : assembleKBOM cfg bc client env = (Except.ok k, tr)) :
    tr = [Event.callMetadata, Event.callAllNodes (!cfg.short), Event.callLocation,
          Event.callAllImages, Event.callAllResources (!cfg.short),
          Event.genID env.newUUID, Event.stampTime env.now] ∧
    precedesAll isCollectCall isGenID tr = true ∧
    precedesAll isCollectCall isStamp tr = true ∧
    ((printKBOM cfg env k).2.all (fun ev => sinkTouched ev)) = true ∧
    runGenerate cfg bc (Except.ok client) env =
      ((printKBOM cfg env k).1, tr ++ (printKBOM cfg env k).2) ∧
    k.id = env.newUUID ∧ k.generatedAt = env.now := by
  obtain ⟨kv, cd, nodes, loc, imgs, ress, _, _, _, _, _, hk, htr⟩ :=
    assembleKBOM_ok_elim cfg bc client env k tr h
  subst htr
  refine ⟨rfl, rfl, rfl, printKBOM_trace_sink cfg env k, ?_, ?_, ?_⟩
  · unfold runGenerate
    simp only [h]
    rcases hpk : printKBOM cfg env k with ⟨r, tr2⟩
    cases r <;> simp [hpk]
  · rw [hk]
  · rw [hk]

/-- C3 witness: the amended ordering evaluated on the concrete successful
run under `env₀`. -/
theorem id_time_stamped_after_calls_witness :
    trA = [Event.callMetadata, Event.callAllNodes (!cfgStd.short), Event.callLocation,
          Event.callAllImages, Event.callAllResources (!cfgStd.short),
          Event.genID env₀.newUUID, Event.stampTime env₀.now] ∧
    precedesAll isCollectCall isGenID trA = true ∧
    precedesAll isCollectCall isStamp trA = true ∧
    ((printKBOM cfgStd env₀ docA).2.all (fun ev => sinkTouched ev)) = true ∧
    runGenerate cfgStd bc₀ (Except.ok client₀) env₀ =
      ((printKBOM cfgStd env₀ docA).1, trA ++ (printKBOM cfgStd env₀ docA).2) ∧
    docA.id = env₀.newUUID ∧ docA.generatedAt = env₀.now :=
  id_time_stamped_after_calls cfgStd bc₀ client₀ env₀ docA trA rfl

/-- C7 counterexample: with the metadata call failing as "boom", the run
surfaces exactly "boom" — the underlying cause verbatim, with no
collection-step name wrapped around it. -/
theorem collect_error_unwrapped_cex :
    (runGenerate cfgStd bc₀ (Except.ok clientMetaFail) env₀).1 =
      Except.error "boom" := rfl

/-- C7 (amended): the error surfaced for a failed collection is the
underlying Fact Source error propagated verbatim — it is exactly the
error value of one of the five calls, with no wrapping and no step name
added. -/
theorem collect_error_propagated_verbatim (cfg : Config) (bc : BuildConfig)
    (client : KubeClient) (env : Env) (e : String) (tr : List Event)
    (h : assembleKBOM cfg bc client env = (Except.error e, tr)) :
    (runGenerate cfg bc (Except.ok client) env).1 = Except.error e ∧
    (client.metadata = Except.error e ∨ client.allNodes (!cfg.short) = Except.error e ∨
     client.location = Except.error e ∨ client.allImages = Except.error e ∨
     client.allResources (!cfg.short) = Except.error e) := by
  obtain ⟨hdisj, _⟩ := assembleKBOM_error_elim cfg bc client env e tr h
  refine ⟨?_, hdisj⟩
  unfold runGenerate
  simp only [h]

/-- C7 witness: verbatim propagation evaluated on the concrete failing
client. -/
theorem collect_error_propagated_verbatim_witness :
    (runGenerate cfgStd bc₀ (Except.ok clientMetaFail) env₀).1 = Except.error "boom" ∧
    (clientMetaFail.metadata = Except.error "boom" ∨
     clientMetaFail.allNodes (!cfgStd.short) = Except.error "boom" ∨
     clientMetaFail.location = Except.error "boom" ∨
     clientMetaFail.allImages = Except.error "boom" ∨
     clientMetaFail.allResources (!cfgStd.short) = Except.error "boom") :=
  collect_error_propagated_verbatim cfgStd bc₀ clientMetaFail env₀ "boom"
    [Event.callMetadata] rfl

end KBOMGen

namespace KBOMGen

/-- C4: with a valid output target but a format selector that is neither
json nor yaml, `printKBOM` fails with the unsupported-format error and no
bytes are written to the sink; in file mode the file is created before the
format is validated, so the trace is exactly the file creation followed by
the deferred close — an empty artifact. -/
theorem unsupported_format_no_bytes (cfg : Config) (env : Env) (k : KBOM)
    (hjson : cfg.format ≠ JSONFormat) (hyaml : cfg.format ≠ YAMLFormat)
    (hout : cfg.output = StdOutput ∨ cfg.output = FileOutput) :
    (printKBOM cfg env k).1 =
      Except.error ("format " ++ goQuote cfg.format ++ " is not supported") ∧
    ((printKBOM cfg env k).2.all (fun ev => !(isWrite ev))) = true ∧
    (cfg.output = FileOutput →
      (printKBOM cfg env k).2 =
        [Event.createFile (derivedFilePath cfg k),
         Event.closeSink (Sink.file (derivedFilePath cfg k))]) := by
  rcases hout with ho | ho
  · unfold printKBOM getWriter
    rw [if_pos ho]
    dsimp only
    rw [if_neg hjson, if_neg hyaml]
    refine ⟨rfl, rfl, ?_⟩
    intro hf
    rw [ho] at hf
    exact absurd hf (by decide)
  · have hns : cfg.output ≠ StdOutput := by rw [ho]; decide
    unfold printKBOM getWriter
    rw [if_neg hns, if_pos ho]
    dsimp only
    rw [if_neg hjson, if_neg hyaml]
    exact ⟨rfl, rfl, fun _ => rfl⟩

/-- C4 witness: the xml selector in file mode, evaluated concretely. -/
theorem unsupported_format_no_bytes_witness :
    (printKBOM cfgXmlFile env₀ docA).1 =
      Except.error ("format " ++ goQuote cfgXmlFile.format ++ " is not supported") ∧
    ((printKBOM cfgXmlFile env₀ docA).2.all (fun ev => !(isWrite ev))) = true ∧
    (cfgXmlFile.output = FileOutput →
      (printKBOM cfgXmlFile env₀ docA).2 =
        [Event.createFile (derivedFilePath cfgXmlFile docA),
         Event.closeSink (Sink.file (derivedFilePath cfgXmlFile docA))]) :=
  unsupported_format_no_bytes cfgXmlFile env₀ docA (by decide) (by decide) (Or.inr rfl)

/-- C5: in file mode the sink is created at exactly
`<outPath>/kbom-<fingerprint8>-<timestamp>.<ext>` — the name the spec's
fingerprint, timestamp and extension rule derives from `id`,
`caCertDigest`, `generatedAt` and the format — a deterministic function of
those inputs. -/
theorem file_name_matches_spec (cfg : Config) (k : KBOM)
    (hout : cfg.output = FileOutput) :
    getWriter cfg k =
      (Except.ok (Sink.file (pathJoin cfg.outPath
          (specFileName k.id k.cluster.caCertDigest k.generatedAt cfg.format))),
        [Event.createFile (pathJoin cfg.outPath
          (specFileName k.id k.cluster.caCertDigest k.generatedAt cfg.format))]) := by
  have hns : cfg.output ≠ StdOutput := by rw [hout]; decide
  unfold getWriter
  rw [if_neg hns, if_pos hout]
  rfl

/-- C5 witness: the spec's scenario — digest "abcdef1234567890",
generatedAt 2024-01-02T03:04:05, json — yields
`kbom-abcdef12-2024-01-02-03-04-05.json`. -/
theorem file_name_matches_spec_witness :
    getWriter cfgFile docA =
      (Except.ok (Sink.file "kbom-abcdef12-2024-01-02-03-04-05.json"),
        [Event.createFile "kbom-abcdef12-2024-01-02-03-04-05.json"]) := by
  rw [file_name_matches_spec cfgFile docA rfl]
  rfl

/-- C6 counterexample: in a concrete stdout run the last event of
`printKBOM` is a close of the standard output stream — stdout is closed by
this component. -/
theorem stdout_not_closed_cex :
    (printKBOM cfgStd env₀ docA).2.getLast? =
      some (Event.closeSink Sink.stdout) := rfl

/-- C6 (amended): once `getWriter` hands back the standard output stream,
the deferred close fires on every exit path — success, write failure and
unsupported-format failure — so the component does close stdout, as the
final event of serialization. -/
theorem stdout_closed_every_path (cfg : Config) (env : Env) (k : KBOM)
    (hout : cfg.output = StdOutput) :
    (printKBOM cfg env k).2.getLast? = some (Event.closeSink Sink.stdout) := by
  unfold printKBOM getWriter
  rw [if_pos hout]
  dsimp only
  by_cases hj : cfg.format = JSONFormat
  · rw [if_pos hj]
    cases hw : env.writeResult <;> rfl
  · rw [if_neg hj]
    by_cases hy : cfg.format = YAMLFormat
    · rw [if_pos hy]
      cases hw : env.writeResult <;> rfl
    · rw [if_neg hy]
      rfl

/-- C6 witness: stdout is closed even on the unsupported-format failure
path. -/
theorem stdout_closed_every_path_witness :
    (printKBOM cfgXmlStd env₀ docA).2.getLast? =
      some (Event.closeSink Sink.stdout) :=
  stdout_closed_every_path cfgXmlStd env₀ docA rfl

/-- C9: with an output target that is neither stdout nor file, `printKBOM`
fails with the unsupported-output error and an empty trace — no file is
created — and a whole run under that target never touches any sink. -/
theorem unsupported_output_no_file (cfg : Config) (bc : BuildConfig)
    (client : KubeClient) (env : Env) (k : KBOM)
    (h1 : cfg.output ≠ StdOutput) (h2 : cfg.output ≠ FileOutput) :
    printKBOM cfg env k =
      (Except.error ("output " ++ goQuote cfg.output ++ " is not supported"), []) ∧
    ((runGenerate cfg bc (Except.ok client) env).2.all
      (fun ev => !(sinkTouched ev))) = true := by
  have hpk : ∀ k2 : KBOM, printKBOM cfg env k2 =
      (Except.error ("output " ++ goQuote cfg.output ++ " is not supported"), []) := by
    intro k2
    unfold printKBOM getWriter
    rw [if_neg h1, if_neg h2]
  refine ⟨hpk k, ?_⟩
  rcases hA : assembleKBOM cfg bc client env with ⟨r, tr⟩
  cases r with
  | error e =>
    obtain ⟨_, hall⟩ := assembleKBOM_error_elim cfg bc client env e tr hA
    unfold runGenerate
    simp only [hA]
    exact hall
  | ok k2 =>
    obtain ⟨kv, cd, nodes, loc, imgs, ress, _, _, _, _, _, _, htr⟩ :=
      assembleKBOM_ok_elim cfg bc client env k2 tr hA
    unfold runGenerate
    simp only [hA, hpk k2]
    subst htr
    rfl

/-- C9 witness: the target "s3", evaluated concretely. -/
theorem unsupported_output_no_file_witness :
    printKBOM cfgBadOut env₀ docA =
      (Except.error ("output " ++ goQuote cfgBadOut.output ++ " is not supported"), []) ∧
    ((runGenerate cfgBadOut bc₀ (Except.ok client₀) env₀).2.all
      (fun ev => !(sinkTouched ev))) = true :=
  unsupported_output_no_file cfgBadOut bc₀ client₀ env₀ docA (by decide) (by decide)

/-- C10: in file mode the created file's extension is the raw format
selector string verbatim, whatever its value; and when the selector is
invalid, no bytes are ever written to that file — the artifact stays
empty, carrying the invalid extension. -/
theorem file_ext_is_raw_format (cfg : Config) (env : Env) (k : KBOM)
    (hout : cfg.output = FileOutput) :
    (getWriter cfg k).2 =
      [Event.createFile (pathJoin cfg.outPath
        ("kbom-" ++ (if k.cluster.caCertDigest.length > 8
                     then k.cluster.caCertDigest.take 8
                     else k.id.take 8) ++ "-" ++
          formatTimeDashed k.generatedAt ++ "." ++ cfg.format))] ∧
    (cfg.format ≠ JSONFormat → cfg.format ≠ YAMLFormat →
      ((printKBOM cfg env k).2.all (fun ev => !(isWrite ev))) = true) := by
  have hns : cfg.output ≠ StdOutput := by rw [hout]; decide
  constructor
  · unfold getWriter
    rw [if_neg hns, if_pos hout]
    rfl
  · intro hj hy
    unfold printKBOM getWriter
    rw [if_neg hns, if_pos hout]
    dsimp only
    rw [if_neg hj, if_neg hy]
    rfl

/-- C10 witness: the invalid selector "xml" lands verbatim in the created
file's name, and the file receives no bytes. -/
theorem file_ext_is_raw_format_witness :
    (getWriter cfgXmlFile docA).2 =
      [Event.createFile "kbom-abcdef12-2024-01-02-03-04-05.xml"] ∧
    ((printKBOM cfgXmlFile env₀ docA).2.all (fun ev => !(isWrite ev))) = true := by
  have h := file_ext_is_raw_format cfgXmlFile env₀ docA rfl
  refine ⟨?_, h.2 (by decide) (by decide)⟩
  rw [h.1]
  rfl

/-- C8: two assemblies from the same Fact Source responses, detail mode
and clock differ, in both the JSON and the YAML encoding, only in the id
value: each encoded output is a shared prefix, the run's fresh id, and a
shared suffix, with the shared parts byte-identical across the two runs
(the JSON encoder uses 2-space indentation and the Document Model's field
order by construction, `encodeJSON`). -/
theorem encoded_output_identical_modulo_id (cfg : Config) (bc : BuildConfig)
    (client : KubeClient) (env1 env2 : Env) (k1 k2 : KBOM) (tr1 tr2 : List Event)
    (hnow : env1.now = env2.now)
    (h1 : assembleKBOM cfg bc client env1 = (Except.ok k1, tr1))
    (h2 : assembleKBOM cfg bc client env2 = (Except.ok k2, tr2)) :
    (∃ p s, encodeJSON k1 = p ++ k1.id ++ s ∧ encodeJSON k2 = p ++ k2.id ++ s) ∧
    (∃ p s, encodeYAML k1 = p ++ k1.id ++ s ∧ encodeYAML k2 = p ++ k2.id ++ s) ∧
    k1.id = env1.newUUID ∧ k2.id = env2.newUUID := by
  obtain ⟨kv1, cd1, n1, l1, i1, r1, hm1, hn1, hl1, hi1, hr1, hk1, htr1⟩ :=
    assembleKBOM_ok_elim cfg bc client env1 k1 tr1 h1
  obtain ⟨kv2, cd2, n2, l2, i2, r2, hm2, hn2, hl2, hi2, hr2, hk2, htr2⟩ :=
    assembleKBOM_ok_elim cfg bc client env2 k2 tr2 h2
  have hmd := hm1.symm.trans hm2
  rw [Except.ok.injEq, Prod.mk.injEq] at hmd
  obtain ⟨hkv, hcd⟩ := hmd
  have hnd := hn1.symm.trans hn2
  rw [Except.ok.injEq] at hnd
  have hld := hl1.symm.trans hl2
  rw [Except.ok.injEq] at hld
  have hid := hi1.symm.trans hi2
  rw [Except.ok.injEq] at hid
  have hrd := hr1.symm.trans hr2
  rw [Except.ok.injEq] at hrd
  subst hkv hcd hnd hld hid hrd
  refine ⟨⟨"\x7b\n  \"id\": \"", encodeJSONRest k1, rfl, ?_⟩,
          ⟨"id: ", encodeYAMLRest k1, rfl, ?_⟩, ?_, ?_⟩
  · rw [hk1, hk2, hnow]
    rfl
  · rw [hk1, hk2, hnow]
    rfl
  · rw [hk1]
  · rw [hk2]

/-- C8 witness: the two concrete runs under `env₀` and `envB` (same clock,
different fresh id) decompose as shared bytes around the id in both
encodings. -/
theorem encoded_output_identical_modulo_id_witness :
    (∃ p s, encodeJSON docA = p ++ docA.id ++ s ∧ encodeJSON docB = p ++ docB.id ++ s) ∧
    (∃ p s, encodeYAML docA = p ++ docA.id ++ s ∧ encodeYAML docB = p ++ docB.id ++ s) ∧
    docA.id = env₀.newUUID ∧ docB.id = envB.newUUID :=
  encoded_output_identical_modulo_id cfgStd bc₀ client₀ env₀ envB docA docB trA trB
    rfl rfl rfl

end KBOMGen
